import Mathlib

/-!
Verification of the data-fetch-and-normalize layer of the Open-Meteo weather
dashboard (`app.py`): geocoding lookup, weather fetch, `st.cache_data`-style
result caching, and the JSON-to-table shaping done by the display functions.

Modelling conventions:
- JSON numbers are rationals (`ℚ`); weather codes are integers (`ℤ`).
- A JSON object field that may be absent is an `Option`; accessing an absent
  field with `obj['k']` (Python `KeyError`) or building a `pd.DataFrame` from
  columns of unequal length (Python `ValueError`) is modelled as an
  `Except ShapeError` failure.
- `requests.get` + `raise_for_status` is modelled by an `HttpOutcome` oracle:
  either a decoded JSON body, or a single transport-failure outcome covering
  network errors, the 10-second timeout, and non-success HTTP statuses
  (all of these raise `requests.exceptions.RequestException`).
- `@st.cache_data(ttl=...)` memoizes the wrapped function's return value —
  including a returned `None` — keyed on the exact argument values, and
  treats entries older than the TTL as absent.  The cache is an association
  list of (key, stored value, store time); time is an abstract `ℕ` of
  seconds.  Each cached operation is a step function returning
  (result, new cache, number of outbound HTTP calls performed).
-/

namespace WeatherApp

/-! ## Raw JSON payloads -/

/-- The `current` block of the forecast response: each field is a JSON number
that may be absent from the object. -/
structure RawCurrent where
  temperature_2m : Option ℚ
  relative_humidity_2m : Option ℚ
  apparent_temperature : Option ℚ
  precipitation : Option ℚ
  weather_code : Option ℤ
  wind_speed_10m : Option ℚ
  wind_direction_10m : Option ℚ
deriving DecidableEq, Repr

/-- A calendar date, as parsed by `pd.to_datetime` from a `YYYY-MM-DD` string. -/
structure Date where
  year : ℕ
  month : ℕ
  day : ℕ
deriving DecidableEq, Repr

/-- The `hourly` block: parallel arrays keyed by variable name (the variables
requested by `get_weather_data`), each possibly absent. -/
structure RawHourly where
  time : Option (List String)
  temperature_2m : Option (List ℚ)
  relative_humidity_2m : Option (List ℚ)
  precipitation_probability : Option (List ℚ)
  precipitation : Option (List ℚ)
  weather_code : Option (List ℤ)
  wind_speed_10m : Option (List ℚ)
deriving DecidableEq, Repr

/-- The `daily` block: parallel arrays for the requested daily variables. -/
structure RawDaily where
  time : Option (List Date)
  weather_code : Option (List ℤ)
  temperature_2m_max : Option (List ℚ)
  temperature_2m_min : Option (List ℚ)
  precipitation_sum : Option (List ℚ)
  wind_speed_10m_max : Option (List ℚ)
deriving DecidableEq, Repr

/-- The decoded weather-endpoint response body (`response.json()`). -/
structure WeatherJson where
  current : Option RawCurrent
  hourly : Option RawHourly
  daily : Option RawDaily
deriving DecidableEq, Repr

/-- One geocoding candidate from the `results` array. -/
structure GeoResult where
  name : String
  admin1 : Option String
  country : String
  latitude : ℚ
  longitude : ℚ
deriving DecidableEq, Repr

/-- The decoded geocoding-endpoint response body: the `results` key is
optional. -/
structure GeoJson where
  results : Option (List GeoResult)
deriving DecidableEq, Repr

/-! ## Weather-code catalog (`WEATHER_CODES`) -/

/-- The fixed `WEATHER_CODES` dictionary of `app.py`, with the description
strings exactly as the source file stores them. -/
def WEATHER_CODES : List (ℤ × String) := [
  (0, "â˜€ï¸ Clear sky"),
  (1, "ğŸŒ¤ï¸ Mainly clear"),
  (2, "â›… Partly cloudy"),
  (3, "â˜ï¸ Overcast"),
  (45, "ğŸŒ«ï¸ Foggy"),
  (48, "ğŸŒ«ï¸ Depositing rime fog"),
  (51, "ğŸŒ¦ï¸ Light drizzle"),
  (53, "ğŸŒ¦ï¸ Moderate drizzle"),
  (55, "ğŸŒ§ï¸ Dense drizzle"),
  (61, "ğŸŒ§ï¸ Slight rain"),
  (63, "ğŸŒ§ï¸ Moderate rain"),
  (65, "ğŸŒ§ï¸ Heavy rain"),
  (71, "ğŸŒ¨ï¸ Slight snow"),
  (73, "ğŸŒ¨ï¸ Moderate snow"),
  (75, "â„ï¸ Heavy snow"),
  (77, "ğŸŒ¨ï¸ Snow grains"),
  (80, "ğŸŒ¦ï¸ Slight rain showers"),
  (81, "ğŸŒ§ï¸ Moderate rain showers"),
  (82, "â›ˆï¸ Violent rain showers"),
  (85, "ğŸŒ¨ï¸ Slight snow showers"),
  (86, "â„ï¸ Heavy snow showers"),
  (95, "â›ˆï¸ Thunderstorm"),
  (96, "â›ˆï¸ Thunderstorm with hail"),
  (99, "â›ˆï¸ Thunderstorm with heavy hail")]

/-- `WEATHER_CODES.get(code, "Unknown")`: the description lookup used at
`display_current_weather` and `display_daily_forecast`. -/
def weatherDesc (code : ℤ) : String :=
  (WEATHER_CODES.lookup code).getD "Unknown"

/-! ## Transport and caching -/

/-- Outcome of one outbound HTTP GET (after `raise_for_status` and JSON
decoding): either a decoded body, or a transport failure
(`requests.exceptions.RequestException`: network error, 10s timeout, or
non-success status). -/
inductive HttpOutcome (α : Type) where
  | success (body : α)
  | failure
deriving DecidableEq, Repr

/-- An `st.cache_data` cache: (key, stored return value, store time). -/
abbrev Cache (κ α : Type) := List (κ × α × ℕ)

/-- Cache lookup: find the entry stored for this exact key; an entry older
than the TTL is treated as absent. -/
def cacheLookup {κ α : Type} [DecidableEq κ] (ttl : ℕ) (c : Cache κ α)
    (k : κ) (now : ℕ) : Option α :=
  match c.find? (fun e => decide (e.1 = k)) with
  | some (_, v, t) => if now - t < ttl then some v else none
  | none => none

/-- `get_weather_data` under `@st.cache_data(ttl=1800)`.  On a cache miss it
performs one outbound call; a transport failure is caught and turned into a
returned `None` (after an `st.error` banner), and `st.cache_data` stores
whatever was returned — `None` included.  Returns (result, new cache, number
of outbound calls). -/
def get_weather_data (cache : Cache (ℚ × ℚ) (Option WeatherJson))
    (latitude longitude : ℚ) (now : ℕ) (net : HttpOutcome WeatherJson) :
    Option WeatherJson × Cache (ℚ × ℚ) (Option WeatherJson) × ℕ :=
  match cacheLookup 1800 cache (latitude, longitude) now with
  | some v => (v, cache, 0)
  | none =>
      let result : Option WeatherJson :=
        match net with
        | .success body => some body
        | .failure => none
      (result, ((latitude, longitude), result, now) :: cache, 1)

/-- The body of `geocode_location` (one attempt, no cache): on success it
returns `data['results']` when `data.get('results')` is truthy (present and
nonempty) and `None` otherwise; a transport failure is caught and turned
into a returned `None`. -/
def geocode_body (net : HttpOutcome GeoJson) : Option (List GeoResult) :=
  match net with
  | .success data =>
      match data.results with
      | some (r :: rs) => some (r :: rs)
      | some [] => none
      | none => none
  | .failure => none

/-- `geocode_location` under `@st.cache_data(ttl=3600)`, keyed by the exact
input string. -/
def geocode_location (cache : Cache String (Option (List GeoResult)))
    (city_name : String) (now : ℕ) (net : HttpOutcome GeoJson) :
    Option (List GeoResult) × Cache String (Option (List GeoResult)) × ℕ :=
  match cacheLookup 3600 cache city_name now with
  | some v => (v, cache, 0)
  | none =>
      let result := geocode_body net
      (result, (city_name, result, now) :: cache, 1)

/-- The cache key actually used by the code for the weather cache: the exact
argument pair, no rounding (`st.cache_data` keys on the raw floats). -/
def weatherCacheKey (latitude longitude : ℚ) : ℚ × ℚ :=
  (latitude, longitude)

/-- Rounding a coordinate to 4 decimal places. -/
def roundTo4 (q : ℚ) : ℚ :=
  ((round (q * 10000) : ℤ) : ℚ) / 10000

/-- Spec-side definition, for comparison with `weatherCacheKey`: the spec's
"(latitude rounded to fixed precision, longitude rounded to fixed precision)"
cache key, at the 4-decimal-degree precision the spec suggests. -/
def roundedCacheKeySpec (latitude longitude : ℚ) : ℚ × ℚ :=
  (roundTo4 latitude, roundTo4 longitude)

/-! ## Shaping errors -/

/-- A Python-level error raised while shaping a payload for display:
`keyError k` models a `KeyError` on a dict access `obj['k']`;
`lengthMismatch` models the `ValueError` raised by `pd.DataFrame` when the
supplied columns have unequal lengths. -/
inductive ShapeError where
  | keyError (key : String)
  | lengthMismatch
deriving DecidableEq, Repr

/-- A dict access `obj['k']`: yields the value, or a `KeyError` when absent. -/
def require {α : Type} (key : String) : Option α → Except ShapeError α
  | some v => .ok v
  | none => .error (.keyError key)

/-! ## Current-conditions display (`display_current_weather`) -/

/-- The data rendered by `display_current_weather`, in access order. -/
structure CurrentView where
  weather_desc : String
  temperature_2m : ℚ
  apparent_temperature : ℚ
  relative_humidity_2m : ℚ
  wind_speed_10m : ℚ
  wind_direction_10m : ℚ
  precipitation : ℚ
deriving DecidableEq, Repr

/-- `display_current_weather`: reads `weather_data['current']`, then
`current.get('weather_code', 0)` (an absent code silently defaults to `0`),
then the remaining fields with plain subscripts, whose absence raises
`KeyError` (modelled as `none`). -/
def display_current_weather (weather_data : WeatherJson) : Option CurrentView := do
  let current ← weather_data.current
  let weather_code := current.weather_code.getD 0
  let weather_desc := weatherDesc weather_code
  let temperature ← current.temperature_2m
  let apparent ← current.apparent_temperature
  let humidity ← current.relative_humidity_2m
  let wind_speed ← current.wind_speed_10m
  let wind_direction ← current.wind_direction_10m
  let precip ← current.precipitation
  some ⟨weather_desc, temperature, apparent, humidity, wind_speed,
    wind_direction, precip⟩

/-! ## Hourly shaping (`display_hourly_forecast`) -/

/-- One row of the hourly DataFrame. -/
structure HourlyRow where
  time : String
  temperature : ℚ
  precipitation : ℚ
  humidity : ℚ
deriving DecidableEq, Repr

/-- The DataFrame built by `display_hourly_forecast`: each of the four used
hourly arrays is sliced with `[:24]`, and `pd.DataFrame` aligns the columns
by index, raising `ValueError` when the (sliced) columns differ in length. -/
def display_hourly_forecast (weather_data : WeatherJson) :
    Except ShapeError (List HourlyRow) := do
  let hourly ← require "hourly" weather_data.hourly
  let time ← require "time" hourly.time
  let temperature ← require "temperature_2m" hourly.temperature_2m
  let precip ← require "precipitation" hourly.precipitation
  let humidity ← require "relative_humidity_2m" hourly.relative_humidity_2m
  let time24 := time.take 24
  let temperature24 := temperature.take 24
  let precip24 := precip.take 24
  let humidity24 := humidity.take 24
  if temperature24.length = time24.length ∧ precip24.length = time24.length ∧
      humidity24.length = time24.length then
    .ok ((time24.zip (temperature24.zip (precip24.zip humidity24))).map
      fun x => ⟨x.1, x.2.1, x.2.2.1, x.2.2.2⟩)
  else
    .error .lengthMismatch

/-! ## Daily shaping (`display_daily_forecast`) -/

/-- Sakamoto's day-of-week table (dominical offsets per month). -/
def sakamotoTable : List ℕ := [0, 3, 2, 5, 0, 3, 5, 1, 4, 6, 2, 4]

/-- Day of week of a Gregorian date, 0 = Sunday (Sakamoto's method). -/
def dayOfWeekSun0 (d : Date) : ℕ :=
  let y := if d.month < 3 then d.year - 1 else d.year
  (y + y / 4 - y / 100 + y / 400 + sakamotoTable.getD (d.month - 1) 0 + d.day) % 7

/-- Day of week with 0 = Monday, as in Python's `date.weekday()`. -/
def pythonWeekday (d : Date) : ℕ :=
  (dayOfWeekSun0 d + 6) % 7

/-- The C-locale `%a` abbreviations, indexed by `pythonWeekday`. -/
def weekdayAbbrev : List String :=
  ["Mon", "Tue", "Wed", "Thu", "Fri", "Sat", "Sun"]

/-- Zero-pad a number to 2 digits (`%m`, `%d`). -/
def pad2 (n : ℕ) : String :=
  if n < 10 then "0" ++ toString n else toString n

/-- Zero-pad a number to 4 digits (`%Y`). -/
def pad4 (n : ℕ) : String :=
  if n < 10 then "000" ++ toString n
  else if n < 100 then "00" ++ toString n
  else if n < 1000 then "0" ++ toString n
  else toString n

/-- `Date.strftime('%Y-%m-%d (%a)')`: `YYYY-MM-DD (abbreviated weekday)`. -/
def formatDailyLabel (d : Date) : String :=
  pad4 d.year ++ "-" ++ pad2 d.month ++ "-" ++ pad2 d.day ++ " (" ++
    weekdayAbbrev.getD (pythonWeekday d) "" ++ ")"

/-- One row of the daily DataFrame. -/
structure DailyRow where
  date : String
  max_temp : ℚ
  min_temp : ℚ
  precipitation : ℚ
  max_wind : ℚ
  weather : String
deriving DecidableEq, Repr

/-- The DataFrame built by `display_daily_forecast`: the six daily arrays are
used whole (no slicing); the `Weather` column is
`[WEATHER_CODES.get(code, "Unknown") for code in daily['weather_code']]` and
the `Date` column is formatted with `strftime('%Y-%m-%d (%a)')`.
`pd.DataFrame` raises `ValueError` on columns of unequal length. -/
def display_daily_forecast (weather_data : WeatherJson) :
    Except ShapeError (List DailyRow) := do
  let daily ← require "daily" weather_data.daily
  let time ← require "time" daily.time
  let tmax ← require "temperature_2m_max" daily.temperature_2m_max
  let tmin ← require "temperature_2m_min" daily.temperature_2m_min
  let psum ← require "precipitation_sum" daily.precipitation_sum
  let wmax ← require "wind_speed_10m_max" daily.wind_speed_10m_max
  let codes ← require "weather_code" daily.weather_code
  if tmax.length = time.length ∧ tmin.length = time.length ∧
      psum.length = time.length ∧ wmax.length = time.length ∧
      codes.length = time.length then
    .ok ((time.zip (tmax.zip (tmin.zip (psum.zip (wmax.zip codes))))).map
      fun x => ⟨formatDailyLabel x.1, x.2.1, x.2.2.1, x.2.2.2.1, x.2.2.2.2.1,
        weatherDesc x.2.2.2.2.2⟩)
  else
    .error .lengthMismatch

/-! ## Helper lemmas about association-list lookup -/

theorem lookup_eq_some_of_mem {l : List (ℤ × String)} {a : ℤ} {b : String}
    (hnd : (l.map Prod.fst).Nodup) (h : (a, b) ∈ l) : l.lookup a = some b := by
  induction l with
  | nil => cases h
  | cons hd tl ih =>
      obtain ⟨k, v⟩ := hd
      simp only [List.map_cons, List.nodup_cons] at hnd
      rcases List.mem_cons.mp h with h | h
      · rw [Prod.mk.injEq] at h
        rcases h with ⟨rfl, rfl⟩
        exact List.lookup_cons_self
      · have hne : (a == k) = false := by
          apply beq_false_of_ne
          intro he
          apply hnd.1
          have hm := List.mem_map_of_mem Prod.fst h
          rw [← he]
          exact hm
        simp only [List.lookup_cons, hne]
        exact ih hnd.2 h

theorem lookup_eq_none_of_not_mem_keys {l : List (ℤ × String)} {a : ℤ}
    (h : a ∉ l.map Prod.fst) : l.lookup a = none := by
  rw [List.lookup_eq_none_iff]
  intro p hp
  simp only [bne_iff_ne, ne_eq]
  intro he
  exact h (he ▸ List.mem_map_of_mem Prod.fst hp)

/-! ## Helper lemmas about the cache -/

theorem cacheLookup_cons_self {κ α : Type} [DecidableEq κ] (ttl : ℕ)
    (c : Cache κ α) (k : κ) (v : α) (t now : ℕ) :
    cacheLookup ttl ((k, v, t) :: c) k now =
      if now - t < ttl then some v else none := by
  simp [cacheLookup, List.find?]

theorem cacheLookup_cons_ne {κ α : Type} [DecidableEq κ] (ttl : ℕ)
    (c : Cache κ α) (k k' : κ) (v : α) (t now : ℕ) (h : k ≠ k') :
    cacheLookup ttl ((k, v, t) :: c) k' now = cacheLookup ttl c k' now := by
  simp [cacheLookup, List.find?, h]

/-! ## Claim theorems -/

/-- C7: the weather-code description lookup is defined and non-erroring for
every integer code: it returns the catalog text for codes in the fixed
`WEATHER_CODES` mapping and the fallback label "Unknown" for every code not
in the mapping. -/
theorem weatherDesc_catalog_or_unknown (code : ℤ) (s : String) :
    ((code, s) ∈ WEATHER_CODES → weatherDesc code = s) ∧
    (code ∉ WEATHER_CODES.map Prod.fst → weatherDesc code = "Unknown") := by
  constructor
  · intro h
    have hnd : (WEATHER_CODES.map Prod.fst).Nodup := by decide
    rw [weatherDesc, lookup_eq_some_of_mem hnd h]
    rfl
  · intro h
    rw [weatherDesc, lookup_eq_none_of_not_mem_keys h]
    rfl

/-- Witness for C7 at code 0 (in the catalog) and code 100 (not in the
catalog). -/
theorem weatherDesc_catalog_or_unknown_witness :
    weatherDesc 0 = "â˜€ï¸ Clear sky" ∧ weatherDesc 100 = "Unknown" :=
  ⟨(weatherDesc_catalog_or_unknown 0 "â˜€ï¸ Clear sky").1 (by decide),
   (weatherDesc_catalog_or_unknown 100 "").2 (by decide)⟩

/-- C4: a second weather fetch for the same coordinates, issued within the
1800-second TTL of a successful first fetch, returns the identical cached
payload and performs no second outbound HTTP call (whatever the network
would have answered). -/
theorem weather_fetch_cached_within_ttl
    (cache : Cache (ℚ × ℚ) (Option WeatherJson)) (lat lon : ℚ) (j : WeatherJson)
    (t1 t2 : ℕ) (net2 : HttpOutcome WeatherJson)
    (hmiss : cacheLookup 1800 cache (lat, lon) t1 = none)
    (hfresh : t2 - t1 < 1800) :
    (get_weather_data cache lat lon t1 (.success j)).1 = some j ∧
    (get_weather_data (get_weather_data cache lat lon t1 (.success j)).2.1
        lat lon t2 net2).1 = some j ∧
    (get_weather_data (get_weather_data cache lat lon t1 (.success j)).2.1
        lat lon t2 net2).2.2 = 0 := by
  have h1 : get_weather_data cache lat lon t1 (.success j) =
      (some j, ((lat, lon), some j, t1) :: cache, 1) := by
    simp [get_weather_data, hmiss]
  have h2 : cacheLookup 1800 (((lat, lon), some j, t1) :: cache)
      (lat, lon) t2 = some (some j) := by
    rw [cacheLookup_cons_self, if_pos hfresh]
  refine ⟨by rw [h1], ?_, ?_⟩ <;> rw [h1] <;> simp [get_weather_data, h2]

/-- Witness for C4: Seoul's coordinates, a first fetch at time 0, a second
fetch at time 100 against a network that would now fail. -/
theorem weather_fetch_cached_within_ttl_witness :
    cacheLookup 1800 ([] : Cache (ℚ × ℚ) (Option WeatherJson))
      (375665/10000, 126978/1000) 0 = none ∧
    100 - 0 < 1800 ∧
    ((get_weather_data [] (375665/10000) (126978/1000) 0
        (.success ⟨none, none, none⟩)).1 = some ⟨none, none, none⟩ ∧
      (get_weather_data
          (get_weather_data [] (375665/10000) (126978/1000) 0
            (.success ⟨none, none, none⟩)).2.1
          (375665/10000) (126978/1000) 100 .failure).1 = some ⟨none, none, none⟩ ∧
      (get_weather_data
          (get_weather_data [] (375665/10000) (126978/1000) 0
            (.success ⟨none, none, none⟩)).2.1
          (375665/10000) (126978/1000) 100 .failure).2.2 = 0) :=
  ⟨rfl, by decide,
    weather_fetch_cached_within_ttl [] (375665/10000) (126978/1000)
      ⟨none, none, none⟩ 0 100 .failure rfl (by decide)⟩

/-- C5 counterexample: latitudes 37.56649 and 37.5665 round to the same
4-decimal cache key, yet the code's cache keys for them differ, and a second
fetch with the rounded-equal coordinates misses the first fetch's entry and
performs a second outbound call — the cache is not keyed by rounded
coordinates. -/
theorem weather_cache_key_not_rounded_cex :
    roundedCacheKeySpec (3756649/100000) (126978/1000) =
      roundedCacheKeySpec (375665/10000) (126978/1000) ∧
    weatherCacheKey (3756649/100000) (126978/1000) ≠
      weatherCacheKey (375665/10000) (126978/1000) ∧
    (get_weather_data
        (get_weather_data [] (375665/10000) (126978/1000) 0
          (.success ⟨none, none, none⟩)).2.1
        (3756649/100000) (126978/1000) 60
        (.success ⟨none, none, none⟩)).2.2 = 1 := by
  have hne : ((375665 : ℚ)/10000, (126978 : ℚ)/1000) ≠
      ((3756649 : ℚ)/100000, (126978 : ℚ)/1000) := by
    simp only [ne_eq, Prod.mk.injEq, not_and]
    intro h
    norm_num at h
  refine ⟨?_, ?_, ?_⟩
  · simp only [roundedCacheKeySpec, roundTo4, Prod.mk.injEq]
    norm_num [round_eq]
  · simp only [weatherCacheKey, ne_eq, Prod.mk.injEq, not_and]
    intro h
    norm_num at h
  · have h1 : get_weather_data [] (375665/10000) (126978/1000) 0
        (.success ⟨none, none, none⟩) =
        (some ⟨none, none, none⟩,
          [((375665/10000, 126978/1000), some ⟨none, none, none⟩, 0)], 1) := rfl
    rw [h1]
    have h2 : cacheLookup 1800
        [(((375665 : ℚ)/10000, (126978 : ℚ)/1000),
          some (⟨none, none, none⟩ : WeatherJson), 0)]
        (3756649/100000, 126978/1000) 60 = none := by
      rw [cacheLookup_cons_ne _ _ _ _ _ _ _ hne]
      rfl
    simp [get_weather_data, h2]

/-- C5 amended: the weather cache is keyed by the exact, unrounded coordinate
pair: within the TTL, a second fetch hits the first fetch's entry exactly when
its coordinate pair is equal as given, and any exact difference — even one
that rounds away at fixed precision — misses the cache and triggers a new
outbound call. -/
theorem weather_cache_key_exact
    (cache : Cache (ℚ × ℚ) (Option WeatherJson)) (lat1 lon1 lat2 lon2 : ℚ)
    (j : WeatherJson) (t1 t2 : ℕ) (net2 : HttpOutcome WeatherJson)
    (hmiss1 : cacheLookup 1800 cache (lat1, lon1) t1 = none)
    (hfresh : t2 - t1 < 1800) :
    (weatherCacheKey lat2 lon2 = weatherCacheKey lat1 lon1 →
      (get_weather_data (get_weather_data cache lat1 lon1 t1 (.success j)).2.1
        lat2 lon2 t2 net2).2.2 = 0) ∧
    (weatherCacheKey lat2 lon2 ≠ weatherCacheKey lat1 lon1 →
      cacheLookup 1800 cache (lat2, lon2) t2 = none →
      (get_weather_data (get_weather_data cache lat1 lon1 t1 (.success j)).2.1
        lat2 lon2 t2 net2).2.2 = 1) := by
  have h1 : get_weather_data cache lat1 lon1 t1 (.success j) =
      (some j, ((lat1, lon1), some j, t1) :: cache, 1) := by
    simp [get_weather_data, hmiss1]
  constructor
  · intro hk
    rw [weatherCacheKey, weatherCacheKey, Prod.mk.injEq] at hk
    obtain ⟨e1, e2⟩ := hk
    have h2 : cacheLookup 1800 (((lat1, lon1), some j, t1) :: cache)
        (lat1, lon1) t2 = some (some j) := by
      rw [cacheLookup_cons_self, if_pos hfresh]
    rw [h1, e1, e2]
    simp [get_weather_data, h2]
  · intro hk hmiss2
    have h2 : cacheLookup 1800 (((lat1, lon1), some j, t1) :: cache)
        (lat2, lon2) t2 = none := by
      rw [cacheLookup_cons_ne]
      · exact hmiss2
      · intro he
        exact hk (by rw [weatherCacheKey, weatherCacheKey, he])
    rw [h1]
    simp [get_weather_data, h2]

/-- Witness for the amended C5: an exactly-equal coordinate pair is served
from the cache (no outbound call). -/
theorem weather_cache_key_exact_witness :
    cacheLookup 1800 ([] : Cache (ℚ × ℚ) (Option WeatherJson))
      (356762/10000, 1396503/10000) 0 = none ∧
    90 - 0 < 1800 ∧
    (get_weather_data
        (get_weather_data [] (356762/10000) (1396503/10000) 0
          (.success ⟨none, none, none⟩)).2.1
        (356762/10000) (1396503/10000) 90 .failure).2.2 = 0 :=
  ⟨rfl, by decide,
    (weather_cache_key_exact [] (356762/10000) (1396503/10000)
        (356762/10000) (1396503/10000) ⟨none, none, none⟩ 0 90 .failure
        rfl (by decide)).1 rfl⟩

/-- C1: the code evaluated at the claim's failing input. A weather fetch for
(37.5665, 126.9780) against a transport failure returns the sentinel `None` —
and, contrary to the claim, the cache entry for that key is NOT absent
afterwards: it holds the stored error outcome `None`, so a retry within the
TTL is answered from the cache with `None` and no new outbound call even
though the network has recovered. The geocoding lookup likewise stores its
`None` error outcome. -/
theorem failed_fetch_error_outcome_is_cached :
    (get_weather_data [] (375665/10000) (126978/1000) 0 .failure).1 = none ∧
    cacheLookup 1800
      (get_weather_data [] (375665/10000) (126978/1000) 0 .failure).2.1
      (375665/10000, 126978/1000) 0 = some none ∧
    (get_weather_data
        (get_weather_data [] (375665/10000) (126978/1000) 0 .failure).2.1
        (375665/10000) (126978/1000) 60
        (.success ⟨none, none, none⟩)).1 = none ∧
    (get_weather_data
        (get_weather_data [] (375665/10000) (126978/1000) 0 .failure).2.1
        (375665/10000) (126978/1000) 60
        (.success ⟨none, none, none⟩)).2.2 = 0 ∧
    (geocode_location [] "Seoul" 0 .failure).1 = none ∧
    cacheLookup 3600 (geocode_location [] "Seoul" 0 .failure).2.1
      "Seoul" 0 = some none := by
  have h1 : get_weather_data [] (375665/10000) (126978/1000) 0 .failure =
      (none, [((375665/10000, 126978/1000), none, 0)], 1) := rfl
  have h2 : cacheLookup 1800
      [(((375665 : ℚ)/10000, (126978 : ℚ)/1000), (none : Option WeatherJson), 0)]
      (375665/10000, 126978/1000) 0 = some none := by
    rw [cacheLookup_cons_self, if_pos (by decide : 0 - 0 < 1800)]
  have h2b : cacheLookup 1800
      [(((375665 : ℚ)/10000, (126978 : ℚ)/1000), (none : Option WeatherJson), 0)]
      (375665/10000, 126978/1000) 60 = some none := by
    rw [cacheLookup_cons_self, if_pos (by decide : 60 - 0 < 1800)]
  refine ⟨rfl, ?_, ?_, ?_, rfl, ?_⟩
  · rw [h1]
    exact h2
  · rw [h1]
    simp [get_weather_data, h2b]
  · rw [h1]
    simp [get_weather_data, h2b]
  · have g1 : geocode_location [] "Seoul" 0 .failure =
        (none, [("Seoul", none, 0)], 1) := rfl
    rw [g1]
    rw [cacheLookup_cons_self, if_pos (by decide : 0 - 0 < 3600)]

/-- C2 counterexample: the geocoding lookup does not fail with a NotFound
error distinct from a TransportError, and no error reaches the caller — a
zero-match success response (empty or absent `results`) and a transport
failure produce the identical returned outcome `None` (the exception is
caught inside `geocode_location` and converted to a returned `None`). -/
theorem geocode_failures_conflated_cex :
    (geocode_location [] "Nowhereville" 0 (.success ⟨some []⟩)).1 =
      (geocode_location [] "Nowhereville" 0 .failure).1 ∧
    (geocode_location [] "Nowhereville" 0 (.success ⟨some []⟩)).1 = none ∧
    (geocode_location [] "Nowhereville" 0 (.success ⟨none⟩)).1 = none :=
  ⟨rfl, rfl, rfl⟩

/-- C2 amended: for every place-name input, on a cache miss the geocoding
lookup hands the caller exactly the one-attempt outcome `geocode_body net`:
the provider's candidate list passed through unmodified when the HTTP call
succeeds with a nonempty `results` array, and the single undifferentiated
failure outcome `None` both when the provider returns zero matches (absent or
empty `results`) and when the HTTP call errors, times out at the 10-second
budget, or returns a non-success status — the two failure kinds are
indistinguishable to the caller, and the transport exception is swallowed
inside the function rather than propagated. -/
theorem geocode_location_outcomes
    (cache : Cache String (Option (List GeoResult))) (city : String) (now : ℕ)
    (net : HttpOutcome GeoJson)
    (hmiss : cacheLookup 3600 cache city now = none) :
    (geocode_location cache city now net).1 = geocode_body net ∧
    (∀ r rs, net = .success ⟨some (r :: rs)⟩ → geocode_body net = some (r :: rs)) ∧
    (net = .failure → geocode_body net = none) ∧
    (∀ g, net = .success g → (g.results = none ∨ g.results = some []) →
      geocode_body net = none) := by
  refine ⟨by simp [geocode_location, hmiss], ?_, ?_, ?_⟩
  · rintro r rs rfl
    rfl
  · rintro rfl
    rfl
  · rintro g rfl h
    rcases h with h | h <;> simp [geocode_body, h]

/-- The one-candidate result of the spec's `resolve("Seoul")` scenario. -/
def seoulResult : GeoResult :=
  ⟨"Seoul", none, "South Korea", 375665/10000, 126978/1000⟩

/-- Witness for the amended C2: the spec's Seoul scenario — a payload with the
single result Seoul is returned to the caller as exactly that one candidate. -/
theorem geocode_location_outcomes_witness :
    cacheLookup 3600 ([] : Cache String (Option (List GeoResult))) "Seoul" 0 = none ∧
    (geocode_location [] "Seoul" 0 (.success ⟨some [seoulResult]⟩)).1 =
      geocode_body (.success ⟨some [seoulResult]⟩) ∧
    geocode_body (.success ⟨some [seoulResult]⟩) = some [seoulResult] :=
  ⟨rfl,
    (geocode_location_outcomes [] "Seoul" 0 (.success ⟨some [seoulResult]⟩) rfl).1,
    (geocode_location_outcomes [] "Seoul" 0 (.success ⟨some [seoulResult]⟩) rfl).2.1
      seoulResult [] rfl⟩

/-! ## Helper lemmas about list shaping -/

theorem optionBind_some {α β : Type} (a : α) (f : α → Option β) :
    (some a >>= f) = f a := rfl

theorem optionBind_none {α β : Type} (f : α → Option β) :
    ((none : Option α) >>= f) = none := rfl

theorem exceptBind_ok {ε α β : Type} (a : α) (f : α → Except ε β) :
    (Except.ok a >>= f) = f a := rfl

theorem exceptBind_error {ε α β : Type} (e : ε) (f : α → Except ε β) :
    ((Except.error e : Except ε α) >>= f) = Except.error e := rfl

theorem getD_take {α : Type} (l : List α) (k i : ℕ) (d : α) (hi : i < k) :
    (l.take k).getD i d = l.getD i d := by
  induction l generalizing k i with
  | nil => simp
  | cons a as ih =>
      cases k with
      | zero => cases hi
      | succ k =>
          cases i with
          | zero => rfl
          | succ n =>
              simp only [List.take_succ_cons, List.getD_cons_succ]
              exact ih k n (Nat.lt_of_succ_lt_succ hi)

theorem hourly_rows_length (time : List String) (temp prec hum : List ℚ)
    (e2 : temp.length = time.length) (e3 : prec.length = time.length)
    (e4 : hum.length = time.length) :
    ((time.zip (temp.zip (prec.zip hum))).map
      (fun x => (⟨x.1, x.2.1, x.2.2.1, x.2.2.2⟩ : HourlyRow))).length =
      time.length := by
  simp [List.length_zip, e2, e3, e4]

theorem hourly_rows_getD (time : List String) (temp prec hum : List ℚ)
    (e2 : temp.length = time.length) (e3 : prec.length = time.length)
    (e4 : hum.length = time.length) (i : ℕ) (hi : i < time.length) :
    ((time.zip (temp.zip (prec.zip hum))).map
      (fun x => (⟨x.1, x.2.1, x.2.2.1, x.2.2.2⟩ : HourlyRow))).getD i ⟨"", 0, 0, 0⟩ =
      ⟨time.getD i "", temp.getD i 0, prec.getD i 0, hum.getD i 0⟩ := by
  induction time generalizing temp prec hum i with
  | nil => cases hi
  | cons t ts ih =>
      cases temp with
      | nil => simp at e2
      | cons a as =>
          cases prec with
          | nil => simp at e3
          | cons b bs =>
              cases hum with
              | nil => simp at e4
              | cons c cs =>
                  cases i with
                  | zero => rfl
                  | succ n =>
                      simp only [List.zip_cons_cons, List.map_cons,
                        List.getD_cons_succ]
                      exact ih as bs cs (by simpa using e2) (by simpa using e3)
                        (by simpa using e4) n (by simpa using hi)

theorem display_hourly_forecast_ok (wd : WeatherJson) (hourly : RawHourly)
    (time : List String) (temp prec hum : List ℚ)
    (hw : wd.hourly = some hourly) (ht : hourly.time = some time)
    (h2 : hourly.temperature_2m = some temp)
    (h3 : hourly.precipitation = some prec)
    (h4 : hourly.relative_humidity_2m = some hum)
    (e2 : (temp.take 24).length = (time.take 24).length)
    (e3 : (prec.take 24).length = (time.take 24).length)
    (e4 : (hum.take 24).length = (time.take 24).length) :
    display_hourly_forecast wd =
      .ok (((time.take 24).zip ((temp.take 24).zip
        ((prec.take 24).zip (hum.take 24)))).map
        fun x => ⟨x.1, x.2.1, x.2.2.1, x.2.2.2⟩) := by
  rw [display_hourly_forecast]
  simp only [require, hw, ht, h2, h3, h4, exceptBind_ok]
  rw [if_pos ⟨e2, e3, e4⟩]

/-- A raw hourly payload whose arrays disagree in length (25 vs 24) while all
have at least 24 entries. -/
def hourlyMismatched : RawHourly :=
  { time := some (List.replicate 25 "t")
    temperature_2m := some (List.replicate 24 0)
    relative_humidity_2m := some (List.replicate 24 0)
    precipitation_probability := none
    precipitation := some (List.replicate 24 0)
    weather_code := none
    wind_speed_10m := none }

/-- A weather payload wrapping `hourlyMismatched`. -/
def hourlyMismatchedRaw : WeatherJson :=
  ⟨none, some hourlyMismatched, none⟩

/-- C3 counterexample: the hourly shaping does not fail on raw arrays of
inconsistent length — with a 25-entry `time` array against 24-entry value
arrays (lengths 25 ≠ 24), the `[:24]` slices agree again and the shaping
succeeds with 24 records instead of failing with a MalformedResponse error. -/
theorem shape_hourly_raw_mismatch_not_error_cex :
    hourlyMismatched.time = some (List.replicate 25 "t") ∧
    hourlyMismatched.temperature_2m = some (List.replicate 24 (0 : ℚ)) ∧
    (25 : ℕ) ≠ 24 ∧
    (display_hourly_forecast hourlyMismatchedRaw).toOption.map List.length =
      some 24 :=
  ⟨rfl, rfl, by decide, rfl⟩

/-- C3 amended: the hourly shaping truncates each required array to its first
24 entries and produces one record per index with fields aligned by index; it
fails with a KeyError when a required array is absent, and with the
DataFrame length error when the TRUNCATED arrays differ in length — raw
arrays of inconsistent length that all reach 24 entries are not an error. -/
theorem shape_hourly_truncates_and_aligns (wd : WeatherJson) (hourly : RawHourly)
    (hw : wd.hourly = some hourly) :
    (hourly.time = none →
      display_hourly_forecast wd = .error (.keyError "time")) ∧
    (∀ time, hourly.time = some time → hourly.temperature_2m = none →
      display_hourly_forecast wd = .error (.keyError "temperature_2m")) ∧
    (∀ time temp, hourly.time = some time →
      hourly.temperature_2m = some temp → hourly.precipitation = none →
      display_hourly_forecast wd = .error (.keyError "precipitation")) ∧
    (∀ time temp prec, hourly.time = some time →
      hourly.temperature_2m = some temp → hourly.precipitation = some prec →
      hourly.relative_humidity_2m = none →
      display_hourly_forecast wd = .error (.keyError "relative_humidity_2m")) ∧
    (∀ time temp prec hum, hourly.time = some time →
      hourly.temperature_2m = some temp → hourly.precipitation = some prec →
      hourly.relative_humidity_2m = some hum →
      (((temp.take 24).length = (time.take 24).length ∧
        (prec.take 24).length = (time.take 24).length ∧
        (hum.take 24).length = (time.take 24).length) →
        ∃ rows, display_hourly_forecast wd = .ok rows ∧
          rows.length = min 24 time.length ∧
          ∀ i, i < rows.length →
            rows.getD i ⟨"", 0, 0, 0⟩ =
              ⟨time.getD i "", temp.getD i 0, prec.getD i 0, hum.getD i 0⟩) ∧
      (¬ ((temp.take 24).length = (time.take 24).length ∧
          (prec.take 24).length = (time.take 24).length ∧
          (hum.take 24).length = (time.take 24).length) →
        display_hourly_forecast wd = .error .lengthMismatch)) := by
  refine ⟨?_, ?_, ?_, ?_, ?_⟩
  · intro ht
    rw [display_hourly_forecast]
    simp only [require, hw, ht, exceptBind_ok, exceptBind_error]
  · intro time ht h2
    rw [display_hourly_forecast]
    simp only [require, hw, ht, h2, exceptBind_ok, exceptBind_error]
  · intro time temp ht h2 h3
    rw [display_hourly_forecast]
    simp only [require, hw, ht, h2, h3, exceptBind_ok, exceptBind_error]
  · intro time temp prec ht h2 h3 h4
    rw [display_hourly_forecast]
    simp only [require, hw, ht, h2, h3, h4, exceptBind_ok, exceptBind_error]
  · intro time temp prec hum ht h2 h3 h4
    constructor
    · rintro ⟨e2, e3, e4⟩
      refine ⟨_, display_hourly_forecast_ok wd hourly time temp prec hum
        hw ht h2 h3 h4 e2 e3 e4, ?_, ?_⟩
      · rw [hourly_rows_length _ _ _ _ e2 e3 e4, List.length_take]
      · intro i hi
        rw [hourly_rows_length _ _ _ _ e2 e3 e4, List.length_take] at hi
        have hi24 : i < 24 := Nat.lt_of_lt_of_le hi (Nat.min_le_left _ _)
        have hit : i < (time.take 24).length := by
          rw [List.length_take]
          exact hi
        rw [hourly_rows_getD _ _ _ _ e2 e3 e4 i hit,
          getD_take _ _ _ _ hi24, getD_take _ _ _ _ hi24,
          getD_take _ _ _ _ hi24, getD_take _ _ _ _ hi24]
    · intro hne
      rw [display_hourly_forecast]
      simp only [require, hw, ht, h2, h3, h4, exceptBind_ok]
      rw [if_neg hne]

/-- Witness for the amended C3, on the 25-vs-24 payload: the hypotheses hold,
the truncated lengths agree, and the shaping succeeds with min 24 25 = 24
aligned records. -/
theorem shape_hourly_truncates_and_aligns_witness :
    hourlyMismatchedRaw.hourly = some hourlyMismatched ∧
    hourlyMismatched.time = some (List.replicate 25 "t") ∧
    (∃ rows, display_hourly_forecast hourlyMismatchedRaw = .ok rows ∧
      rows.length = min 24 (List.replicate 25 "t").length ∧
      ∀ i, i < rows.length →
        rows.getD i ⟨"", 0, 0, 0⟩ =
          ⟨(List.replicate 25 "t").getD i "",
            (List.replicate 24 (0 : ℚ)).getD i 0,
            (List.replicate 24 (0 : ℚ)).getD i 0,
            (List.replicate 24 (0 : ℚ)).getD i 0⟩) :=
  ⟨rfl, rfl,
    ((shape_hourly_truncates_and_aligns hourlyMismatchedRaw hourlyMismatched
        rfl).2.2.2.2 (List.replicate 25 "t") (List.replicate 24 0)
        (List.replicate 24 0) (List.replicate 24 0) rfl rfl rfl rfl).1
      ⟨rfl, rfl, rfl⟩⟩

/-- An hourly payload whose four used arrays all have 2 entries. -/
def hourlyShort : RawHourly :=
  { time := some ["a", "b"]
    temperature_2m := some [1, 2]
    relative_humidity_2m := some [70, 71]
    precipitation_probability := none
    precipitation := some [0, 0]
    weather_code := none
    wind_speed_10m := none }

/-- A weather payload wrapping `hourlyShort`. -/
def hourlyShortRaw : WeatherJson :=
  ⟨none, some hourlyShort, none⟩

/-- C9: when all four used hourly arrays have the same length n with n < 24,
the hourly shaping does not fail: the `[:24]` slice truncates gracefully and
the result is a series of exactly n aligned records. -/
theorem shape_hourly_short_arrays_ok (wd : WeatherJson) (hourly : RawHourly)
    (time : List String) (temp prec hum : List ℚ) (n : ℕ)
    (hw : wd.hourly = some hourly) (ht : hourly.time = some time)
    (h2 : hourly.temperature_2m = some temp)
    (h3 : hourly.precipitation = some prec)
    (h4 : hourly.relative_humidity_2m = some hum)
    (l1 : time.length = n) (l2 : temp.length = n) (l3 : prec.length = n)
    (l4 : hum.length = n) (hn : n < 24) :
    ∃ rows, display_hourly_forecast wd = .ok rows ∧ rows.length = n ∧
      ∀ i, i < n →
        rows.getD i ⟨"", 0, 0, 0⟩ =
          ⟨time.getD i "", temp.getD i 0, prec.getD i 0, hum.getD i 0⟩ := by
  have hle : n ≤ 24 := Nat.le_of_lt hn
  have tk1 : time.take 24 = time := List.take_of_length_le (l1 ▸ hle)
  have tk2 : temp.take 24 = temp := List.take_of_length_le (l2 ▸ hle)
  have tk3 : prec.take 24 = prec := List.take_of_length_le (l3 ▸ hle)
  have tk4 : hum.take 24 = hum := List.take_of_length_le (l4 ▸ hle)
  have e2 : (temp.take 24).length = (time.take 24).length := by
    rw [tk1, tk2, l1, l2]
  have e3 : (prec.take 24).length = (time.take 24).length := by
    rw [tk1, tk3, l1, l3]
  have e4 : (hum.take 24).length = (time.take 24).length := by
    rw [tk1, tk4, l1, l4]
  refine ⟨_, display_hourly_forecast_ok wd hourly time temp prec hum
    hw ht h2 h3 h4 e2 e3 e4, ?_, ?_⟩
  · rw [tk1, tk2, tk3, tk4,
      hourly_rows_length _ _ _ _ (by rw [l1, l2]) (by rw [l1, l3]) (by rw [l1, l4]), l1]
  · intro i hi
    rw [tk1, tk2, tk3, tk4,
      hourly_rows_getD _ _ _ _ (by rw [l1, l2]) (by rw [l1, l3]) (by rw [l1, l4])
        i (l1 ▸ hi)]

/-- Witness for C9: a 2-entry hourly payload shapes to 2 aligned records. -/
theorem shape_hourly_short_arrays_ok_witness :
    hourlyShortRaw.hourly = some hourlyShort ∧
    hourlyShort.time = some ["a", "b"] ∧
    (2 : ℕ) < 24 ∧
    (∃ rows, display_hourly_forecast hourlyShortRaw = .ok rows ∧
      rows.length = 2 ∧
      ∀ i, i < 2 →
        rows.getD i ⟨"", 0, 0, 0⟩ =
          ⟨["a", "b"].getD i "", [1, 2].getD i 0, [0, 0].getD i 0,
            [70, 71].getD i 0⟩) :=
  ⟨rfl, rfl, by decide,
    shape_hourly_short_arrays_ok hourlyShortRaw hourlyShort
      ["a", "b"] [1, 2] [0, 0] [70, 71] 2
      rfl rfl rfl rfl rfl rfl rfl rfl rfl (by decide)⟩

theorem daily_rows_length (time : List Date) (tmax tmin psum wmax : List ℚ)
    (codes : List ℤ)
    (e1 : tmax.length = time.length) (e2 : tmin.length = time.length)
    (e3 : psum.length = time.length) (e4 : wmax.length = time.length)
    (e5 : codes.length = time.length) :
    ((time.zip (tmax.zip (tmin.zip (psum.zip (wmax.zip codes))))).map
      (fun x => (⟨formatDailyLabel x.1, x.2.1, x.2.2.1, x.2.2.2.1, x.2.2.2.2.1,
        weatherDesc x.2.2.2.2.2⟩ : DailyRow))).length = time.length := by
  simp [List.length_zip, e1, e2, e3, e4, e5]

theorem daily_rows_getD (time : List Date) (tmax tmin psum wmax : List ℚ)
    (codes : List ℤ)
    (e1 : tmax.length = time.length) (e2 : tmin.length = time.length)
    (e3 : psum.length = time.length) (e4 : wmax.length = time.length)
    (e5 : codes.length = time.length) (i : ℕ) (hi : i < time.length) :
    ((time.zip (tmax.zip (tmin.zip (psum.zip (wmax.zip codes))))).map
      (fun x => (⟨formatDailyLabel x.1, x.2.1, x.2.2.1, x.2.2.2.1, x.2.2.2.2.1,
        weatherDesc x.2.2.2.2.2⟩ : DailyRow))).getD i ⟨"", 0, 0, 0, 0, ""⟩ =
      ⟨formatDailyLabel (time.getD i ⟨0, 1, 1⟩), tmax.getD i 0, tmin.getD i 0,
        psum.getD i 0, wmax.getD i 0, weatherDesc (codes.getD i 0)⟩ := by
  induction time generalizing tmax tmin psum wmax codes i with
  | nil => cases hi
  | cons t ts ih =>
      cases tmax with
      | nil => simp at e1
      | cons a as =>
        cases tmin with
        | nil => simp at e2
        | cons b bs =>
          cases psum with
          | nil => simp at e3
          | cons c cs =>
            cases wmax with
            | nil => simp at e4
            | cons d ds =>
              cases codes with
              | nil => simp at e5
              | cons k ks =>
                cases i with
                | zero => rfl
                | succ n =>
                    simp only [List.zip_cons_cons, List.map_cons,
                      List.getD_cons_succ]
                    exact ih as bs cs ds ks (by simpa using e1)
                      (by simpa using e2) (by simpa using e3)
                      (by simpa using e4) (by simpa using e5) n
                      (by simpa using hi)

theorem display_daily_forecast_ok (wd : WeatherJson) (daily : RawDaily)
    (time : List Date) (tmax tmin psum wmax : List ℚ) (codes : List ℤ)
    (hd : wd.daily = some daily) (ht : daily.time = some time)
    (h1 : daily.temperature_2m_max = some tmax)
    (h2 : daily.temperature_2m_min = some tmin)
    (h3 : daily.precipitation_sum = some psum)
    (h4 : daily.wind_speed_10m_max = some wmax)
    (h5 : daily.weather_code = some codes)
    (e1 : tmax.length = time.length) (e2 : tmin.length = time.length)
    (e3 : psum.length = time.length) (e4 : wmax.length = time.length)
    (e5 : codes.length = time.length) :
    display_daily_forecast wd =
      .ok ((time.zip (tmax.zip (tmin.zip (psum.zip (wmax.zip codes))))).map
        fun x => ⟨formatDailyLabel x.1, x.2.1, x.2.2.1, x.2.2.2.1, x.2.2.2.2.1,
          weatherDesc x.2.2.2.2.2⟩) := by
  rw [display_daily_forecast]
  simp only [require, hd, ht, h1, h2, h3, h4, h5, exceptBind_ok]
  rw [if_pos ⟨e1, e2, e3, e4, e5⟩]

/-- C8: on a raw daily payload whose six arrays all have 7 entries, the daily
shaping returns 7 records; at each index i the record's `Weather` field is the
weather-code description of `weather_code[i]`, its date label is the
`strftime('%Y-%m-%d (%a)')` rendering of `time[i]`, and the numeric fields are
aligned by index. -/
theorem shape_daily_seven_aligned (wd : WeatherJson) (daily : RawDaily)
    (time : List Date) (tmax tmin psum wmax : List ℚ) (codes : List ℤ)
    (hd : wd.daily = some daily) (ht : daily.time = some time)
    (h1 : daily.temperature_2m_max = some tmax)
    (h2 : daily.temperature_2m_min = some tmin)
    (h3 : daily.precipitation_sum = some psum)
    (h4 : daily.wind_speed_10m_max = some wmax)
    (h5 : daily.weather_code = some codes)
    (l0 : time.length = 7) (l1 : tmax.length = 7) (l2 : tmin.length = 7)
    (l3 : psum.length = 7) (l4 : wmax.length = 7) (l5 : codes.length = 7) :
    ∃ rows, display_daily_forecast wd = .ok rows ∧ rows.length = 7 ∧
      ∀ i, i < 7 →
        rows.getD i ⟨"", 0, 0, 0, 0, ""⟩ =
          ⟨formatDailyLabel (time.getD i ⟨0, 1, 1⟩), tmax.getD i 0,
            tmin.getD i 0, psum.getD i 0, wmax.getD i 0,
            weatherDesc (codes.getD i 0)⟩ := by
  have e1 : tmax.length = time.length := by rw [l0, l1]
  have e2 : tmin.length = time.length := by rw [l0, l2]
  have e3 : psum.length = time.length := by rw [l0, l3]
  have e4 : wmax.length = time.length := by rw [l0, l4]
  have e5 : codes.length = time.length := by rw [l0, l5]
  refine ⟨_, display_daily_forecast_ok wd daily time tmax tmin psum wmax codes
    hd ht h1 h2 h3 h4 h5 e1 e2 e3 e4 e5, ?_, ?_⟩
  · rw [daily_rows_length _ _ _ _ _ _ e1 e2 e3 e4 e5, l0]
  · intro i hi
    exact daily_rows_getD _ _ _ _ _ _ e1 e2 e3 e4 e5 i (by rw [l0]; exact hi)

/-- A 7-day raw daily payload: the week 2025-10-06 (Monday) through
2025-10-12 (Sunday). -/
def dailySeven : RawDaily :=
  { time := some [⟨2025, 10, 6⟩, ⟨2025, 10, 7⟩, ⟨2025, 10, 8⟩, ⟨2025, 10, 9⟩,
      ⟨2025, 10, 10⟩, ⟨2025, 10, 11⟩, ⟨2025, 10, 12⟩]
    weather_code := some [0, 1, 2, 3, 45, 61, 95]
    temperature_2m_max := some [20, 21, 22, 23, 24, 25, 26]
    temperature_2m_min := some [10, 11, 12, 13, 14, 15, 16]
    precipitation_sum := some [0, 0, 1, 2, 0, 5, 9]
    wind_speed_10m_max := some [7, 8, 9, 10, 11, 12, 13] }

/-- A weather payload wrapping `dailySeven`. -/
def dailySevenRaw : WeatherJson :=
  ⟨none, none, some dailySeven⟩

/-- Witness for C8 on the concrete 7-day payload `dailySeven`. -/
theorem shape_daily_seven_aligned_witness :
    dailySevenRaw.daily = some dailySeven ∧
    dailySeven.weather_code = some [0, 1, 2, 3, 45, 61, 95] ∧
    (∃ rows, display_daily_forecast dailySevenRaw = .ok rows ∧
      rows.length = 7 ∧
      ∀ i, i < 7 →
        rows.getD i ⟨"", 0, 0, 0, 0, ""⟩ =
          ⟨formatDailyLabel ([⟨2025, 10, 6⟩, ⟨2025, 10, 7⟩, ⟨2025, 10, 8⟩,
              ⟨2025, 10, 9⟩, ⟨2025, 10, 10⟩, ⟨2025, 10, 11⟩,
              ⟨2025, 10, 12⟩].getD i ⟨0, 1, 1⟩),
            [20, 21, 22, 23, 24, 25, 26].getD i 0,
            [10, 11, 12, 13, 14, 15, 16].getD i 0,
            [0, 0, 1, 2, 0, 5, 9].getD i 0,
            [7, 8, 9, 10, 11, 12, 13].getD i 0,
            weatherDesc ([0, 1, 2, 3, 45, 61, 95].getD i 0)⟩) :=
  ⟨rfl, rfl,
    shape_daily_seven_aligned dailySevenRaw dailySeven _ _ _ _ _ _
      rfl rfl rfl rfl rfl rfl rfl rfl rfl rfl rfl rfl rfl⟩

/-- C10: the daily shaping imposes no 7-row bound: on a raw daily payload
whose six arrays all have the same length n, it produces exactly n records —
whatever the provider returned, with no truncation analogous to the hourly
24-entry cut. -/
theorem shape_daily_no_truncation (wd : WeatherJson) (daily : RawDaily)
    (time : List Date) (tmax tmin psum wmax : List ℚ) (codes : List ℤ) (n : ℕ)
    (hd : wd.daily = some daily) (ht : daily.time = some time)
    (h1 : daily.temperature_2m_max = some tmax)
    (h2 : daily.temperature_2m_min = some tmin)
    (h3 : daily.precipitation_sum = some psum)
    (h4 : daily.wind_speed_10m_max = some wmax)
    (h5 : daily.weather_code = some codes)
    (l0 : time.length = n) (l1 : tmax.length = n) (l2 : tmin.length = n)
    (l3 : psum.length = n) (l4 : wmax.length = n) (l5 : codes.length = n) :
    ∃ rows, display_daily_forecast wd = .ok rows ∧ rows.length = n := by
  have e1 : tmax.length = time.length := by rw [l0, l1]
  have e2 : tmin.length = time.length := by rw [l0, l2]
  have e3 : psum.length = time.length := by rw [l0, l3]
  have e4 : wmax.length = time.length := by rw [l0, l4]
  have e5 : codes.length = time.length := by rw [l0, l5]
  refine ⟨_, display_daily_forecast_ok wd daily time tmax tmin psum wmax codes
    hd ht h1 h2 h3 h4 h5 e1 e2 e3 e4 e5, ?_⟩
  rw [daily_rows_length _ _ _ _ _ _ e1 e2 e3 e4 e5, l0]

/-- A raw daily payload with 9 entries per array — more than the 7 the spec
expects. -/
def dailyNine : RawDaily :=
  { time := some (List.replicate 9 ⟨2025, 1, 1⟩)
    weather_code := some (List.replicate 9 0)
    temperature_2m_max := some (List.replicate 9 0)
    temperature_2m_min := some (List.replicate 9 0)
    precipitation_sum := some (List.replicate 9 0)
    wind_speed_10m_max := some (List.replicate 9 0) }

/-- A weather payload wrapping `dailyNine`. -/
def dailyNineRaw : WeatherJson :=
  ⟨none, none, some dailyNine⟩

/-- Witness for C10: a 9-entry daily payload shapes to 9 records, not 7. -/
theorem shape_daily_no_truncation_witness :
    dailyNineRaw.daily = some dailyNine ∧
    (List.replicate 9 (⟨2025, 1, 1⟩ : Date)).length = 9 ∧
    (∃ rows, display_daily_forecast dailyNineRaw = .ok rows ∧
      rows.length = 9) :=
  ⟨rfl, rfl,
    shape_daily_no_truncation dailyNineRaw dailyNine _ _ _ _ _ _ 9
      rfl rfl rfl rfl rfl rfl rfl rfl rfl rfl rfl rfl rfl⟩

/-- A `current` block with every field present except `weather_code`. -/
def currentNoCode : RawCurrent :=
  { temperature_2m := some 21
    relative_humidity_2m := some 60
    apparent_temperature := some 20
    precipitation := some 0
    weather_code := none
    wind_speed_10m := some 5
    wind_direction_10m := some 180 }

/-- A weather payload wrapping `currentNoCode`. -/
def currentNoCodeRaw : WeatherJson :=
  ⟨some currentNoCode, none, none⟩

/-- C6 counterexample: a response whose `current` block lacks the
`weather_code` field is not a fetch error — the fetch returns the payload
without any field validation, and the display renders a full card anyway,
silently substituting code 0 ("Clear sky") for the absent field. -/
theorem current_absent_weather_code_not_error_cex :
    currentNoCode.weather_code = none ∧
    (get_weather_data [] 0 0 0 (.success currentNoCodeRaw)).1 =
      some currentNoCodeRaw ∧
    display_current_weather currentNoCodeRaw =
      some ⟨"â˜€ï¸ Clear sky", 21, 20, 60, 5, 180, 0⟩ :=
  ⟨rfl, rfl, rfl⟩

/-- C6 amended: the fetch itself performs no field validation (it returns the
decoded payload as-is); at display time the six numeric fields are required —
if any of them is absent the rendering aborts with a KeyError — but the
`weather_code` field is optional: when absent it silently defaults to 0, so
the rendered snapshot is partial in that one field rather than an error. -/
theorem current_fields_required_except_weather_code (wd : WeatherJson)
    (c : RawCurrent) (hc : wd.current = some c) :
    ((c.temperature_2m = none ∨ c.apparent_temperature = none ∨
      c.relative_humidity_2m = none ∨ c.wind_speed_10m = none ∨
      c.wind_direction_10m = none ∨ c.precipitation = none) →
      display_current_weather wd = none) ∧
    (∀ t a hu w d p, c.temperature_2m = some t →
      c.apparent_temperature = some a → c.relative_humidity_2m = some hu →
      c.wind_speed_10m = some w → c.wind_direction_10m = some d →
      c.precipitation = some p →
      display_current_weather wd =
        some ⟨weatherDesc (c.weather_code.getD 0), t, a, hu, w, d, p⟩) ∧
    (∀ (cache : Cache (ℚ × ℚ) (Option WeatherJson)) lat lon now net,
      cacheLookup 1800 cache (lat, lon) now = none →
      (get_weather_data cache lat lon now net).1 =
        match net with
        | .success body => some body
        | .failure => none) := by
  refine ⟨?_, ?_, ?_⟩
  · intro habs
    rcases habs with h | h | h | h | h | h
    · simp only [display_current_weather, hc, h, optionBind_some,
        optionBind_none]
    · cases e1 : c.temperature_2m <;>
        simp only [display_current_weather, hc, h, e1, optionBind_some,
          optionBind_none]
    · cases e1 : c.temperature_2m <;> cases e2 : c.apparent_temperature <;>
        simp only [display_current_weather, hc, h, e1, e2, optionBind_some,
          optionBind_none]
    · cases e1 : c.temperature_2m <;> cases e2 : c.apparent_temperature <;>
        cases e3 : c.relative_humidity_2m <;>
        simp only [display_current_weather, hc, h, e1, e2, e3,
          optionBind_some, optionBind_none]
    · cases e1 : c.temperature_2m <;> cases e2 : c.apparent_temperature <;>
        cases e3 : c.relative_humidity_2m <;> cases e4 : c.wind_speed_10m <;>
        simp only [display_current_weather, hc, h, e1, e2, e3, e4,
          optionBind_some, optionBind_none]
    · cases e1 : c.temperature_2m <;> cases e2 : c.apparent_temperature <;>
        cases e3 : c.relative_humidity_2m <;> cases e4 : c.wind_speed_10m <;>
        cases e5 : c.wind_direction_10m <;>
        simp only [display_current_weather, hc, h, e1, e2, e3, e4, e5,
          optionBind_some, optionBind_none]
  · intro t a hu w d p e1 e2 e3 e4 e5 e6
    simp only [display_current_weather, hc, e1, e2, e3, e4, e5, e6,
      optionBind_some, optionBind_none]
  · intro cache lat lon now net hmiss
    cases net <;> simp only [get_weather_data, hmiss]

/-- A `current` block lacking the required `temperature_2m` field. -/
def currentNoTemp : RawCurrent :=
  { temperature_2m := none
    relative_humidity_2m := some 60
    apparent_temperature := some 20
    precipitation := some 0
    weather_code := some 2
    wind_speed_10m := some 5
    wind_direction_10m := some 180 }

/-- A weather payload wrapping `currentNoTemp`. -/
def currentNoTempRaw : WeatherJson :=
  ⟨some currentNoTemp, none, none⟩

/-- Witness for the amended C6: an absent `temperature_2m` aborts the
current-weather rendering. -/
theorem current_fields_required_except_weather_code_witness :
    currentNoTempRaw.current = some currentNoTemp ∧
    currentNoTemp.temperature_2m = none ∧
    display_current_weather currentNoTempRaw = none :=
  ⟨rfl, rfl,
    (current_fields_required_except_weather_code currentNoTempRaw
      currentNoTemp rfl).1 (Or.inl rfl)⟩

end WeatherApp
